import Mathlib

/-!
Shallow embedding of the rekall session module (rekall/session.py):
the layered configuration store (`Cache`, `Configuration`), the
session parameter resolver (`Session.GetParameter` /
`Session.StoreParameter`), the profile search (`Session.LoadProfile`)
and the plugin dispatch pipeline (`Session.vol`).
-/

namespace Rekall

/-- Python values as they flow through the configuration store.
`vint` stands for Python `int`/`long`, `vfloat` for `float` (we only
need its type membership and truthiness, so the payload is abstract),
`vset` for a Python `set` (a falsy-when-empty, non-serializable
container), and `vobj` for any other opaque Python object (always
truthy, non-serializable). -/
inductive Value where
  | vnone : Value
  | vbool : Bool → Value
  | vint : Int → Value
  | vfloat : Int → Value
  | vstr : String → Value
  | vlist : List Value → Value
  | vdict : List (Value × Value) → Value
  | vset : List Value → Value
  | vobj : String → Value

/-- Python `value is None`. -/
def isNone : Value → Bool
  | .vnone => true
  | _ => false

/-- Python truthiness (`if value:`) for the values we model. -/
def truthy : Value → Bool
  | .vnone => false
  | .vbool b => b
  | .vint n => n != 0
  | .vfloat x => x != 0
  | .vstr s => s != ""
  | .vlist xs => !xs.isEmpty
  | .vdict es => !es.isEmpty
  | .vset xs => !xs.isEmpty
  | .vobj _ => true

mutual

/-- `Cache._CheckCorrectType`: `None`, `int`/`long`/`basestring`/`float`
(hence also `bool`, a subclass of `int`) pass; `list`/`tuple` pass when
all elements pass; `dict` passes when all keys and all values pass;
anything else fails. -/
def _CheckCorrectType : Value → Bool
  | .vnone => true
  | .vbool _ => true
  | .vint _ => true
  | .vfloat _ => true
  | .vstr _ => true
  | .vlist xs => checkAllValues xs
  | .vdict es => checkAllPairs es
  | .vset _ => false
  | .vobj _ => false

/-- All elements of a list pass `_CheckCorrectType`
(the `all(...)` generator over a list/tuple). -/
def checkAllValues : List Value → Bool
  | [] => true
  | x :: xs => _CheckCorrectType x && checkAllValues xs

/-- All keys and values of a dict pass `_CheckCorrectType`
(the source checks `value.keys()` and `value.values()`; boolean-equal
to checking each pair). -/
def checkAllPairs : List (Value × Value) → Bool
  | [] => true
  | (k, v) :: es => _CheckCorrectType k && _CheckCorrectType v && checkAllPairs es

end

/-- A Python dict with string keys, as an insertion-ordered
association list without duplicate keys being created by `dictSet`. -/
abbrev Dict := List (String × Value)

/-- `d[k] = v`: replace in place if the key exists, else append. -/
def dictSet : Dict → String → Value → Dict
  | [], k, v => [(k, v)]
  | (k', v') :: rest, k, v =>
    if k' = k then (k', v) :: rest else (k', v') :: dictSet rest k v

/-- `d.get(k)` as an `Option`. -/
def dictGet : Dict → String → Option Value
  | [], _ => none
  | (k', v') :: rest, k => if k' = k then some v' else dictGet rest k

/-- `d.get(k, default)`. -/
def dictGetD (d : Dict) (k : String) (default : Value) : Value :=
  match dictGet d k with
  | some v => v
  | none => default

/-- `d.update(kwargs)`: plain mapping update, one `__setitem__` per pair. -/
def dictUpdate (d : Dict) : List (String × Value) → Dict
  | [] => d
  | (k, v) :: rest => dictUpdate (dictSet d k v) rest

/-- Python exceptions raised by the configuration layer. -/
inductive PyError where
  /-- `ValueError("Configuration parameters must be simple types...")` -/
  | typeError : PyError
  /-- `ValueError("Can only update configuration using the context manager.")` -/
  | lockedError : PyError
  /-- `AttributeError` from `os.path.basename` applied to a non-string -/
  | attributeError : PyError
  /-- `TypeError` from calling a non-callable dict-stored `_set_*` entry -/
  | notCallable : PyError
deriving DecidableEq, Repr

/-- Characters after the last `/` of the scanned list (`acc` holds the
current segment, reversed). -/
def afterLastSlash : List Char → List Char → List Char
  | [], acc => acc.reverse
  | c :: rest, acc =>
    if c = '/' then afterLastSlash rest [] else afterLastSlash rest (c :: acc)

/-- `os.path.basename`: the part of the path after the last `/`. -/
def basename (s : String) : String :=
  ⟨afterLastSlash s.data []⟩

/-- `Cache._set_filename`: when the value is truthy, store it under
`filename` and store its basename under `base_filename`.
`os.path.basename` of a non-string raises `AttributeError` after
`filename` was already written. -/
def set_filename (d : Dict) (v : Value) : Dict × Option PyError :=
  if truthy v then
    match v with
    | .vstr s =>
        (dictSet (dictSet d "filename" (.vstr s)) "base_filename" (.vstr (basename s)), none)
    | _ => (dictSet d "filename" v, some .attributeError)
  else (d, none)

/-- `Cache.Set`: look for a hook `_set_<attr>`.  Normal attribute lookup
finds the method `_set_filename` for `attr = "filename"`; for any other
attribute `getattr` falls back to `Cache.__getattr__`, i.e. a dict
lookup of the key `"_set_" ++ attr` (a truthy dict entry would be called
and fail as non-callable, a falsy or absent one means no hook).  With no
hook the value is type-checked and stored. -/
def cacheSet (d : Dict) (k : String) (v : Value) : Dict × Option PyError :=
  if k = "filename" then
    set_filename d v
  else
    match dictGet d ("_set_" ++ k) with
    | some hv =>
        if truthy hv then (d, some .notCallable)
        else if _CheckCorrectType v then (dictSet d k v, none)
        else (d, some .typeError)
    | none =>
        if _CheckCorrectType v then (dictSet d k v, none)
        else (d, some .typeError)

/-- The state-layer `Configuration` object: its dict contents, its
write lock `_lock`, and whether `self.session` is set (truthy). -/
structure Configuration where
  data : Dict
  lock : Bool
  hasSession : Bool

/-- `Configuration.Set`: raise a locking `ValueError` when `_lock` is
set, otherwise delegate to `Cache.Set`. -/
def configSet (c : Configuration) (k : String) (v : Value) :
    Configuration × Option PyError :=
  if c.lock then (c, some .lockedError)
  else
    let (d, e) := cacheSet c.data k v
    ({ c with data := d }, e)

/-- A sequence of `Configuration.Set` calls where the caller catches
each exception and continues: final configuration and the error of
each call. -/
def configSetSeq (c : Configuration) :
    List (String × Value) → Configuration × List (Option PyError)
  | [] => (c, [])
  | (k, v) :: rest =>
    let (c1, e) := configSet c k v
    let (c2, es) := configSetSeq c1 rest
    (c2, e :: es)

/-- `Configuration.__init__`: set `self.session`, seed the dict with a
plain `self.update(**kwargs)` (no type check, no hooks), then lock. -/
def configurationInit (hasSession : Bool) (kwargs : List (String × Value)) :
    Configuration × Option PyError :=
  ({ data := dictUpdate [] kwargs, lock := true, hasSession := hasSession }, none)

/-- `Configuration.__enter__`: open the write lock. -/
def configEnter (c : Configuration) : Configuration :=
  { c with lock := false }

/-- `Configuration.__exit__`: re-lock, then call
`session.UpdateFromConfigObject()` when a session is attached.  Returns
the new configuration and how many times the re-synchronization hook
ran. -/
def configExit (c : Configuration) : Configuration × Nat :=
  let c1 := { c with lock := true }
  (c1, if c1.hasSession then 1 else 0)

/-- The body of a `with` statement over the configuration: a sequence
of `Set` calls, aborted by the first uncaught exception (which then
propagates out of the body). -/
def runBody (c : Configuration) :
    List (String × Value) → Configuration × Option PyError
  | [] => (c, none)
  | (k, v) :: rest =>
    match configSet c k v with
    | (c1, none) => runBody c1 rest
    | (c1, some e) => (c1, some e)

/-- A scoped configuration update: `__enter__`, run the body,
`__exit__` (which Python runs even when the body raised; `__exit__`
returns `None` so the exception of the body propagates).  Returns the final
configuration, the propagated exception, and the number of
re-synchronization hook runs. -/
def withConfigUpdate (c : Configuration) (body : List (String × Value)) :
    Configuration × Option PyError × Nat :=
  let c1 := configEnter c
  let (c2, e) := runBody c1 body
  let (c3, n) := configExit c2
  (c3, e, n)

/-- The two configuration layers of the session: `self.state` (a
`Configuration`) and `self.state.cache` (a plain `Cache` dict, held in
the embedding as its own field). -/
structure SessionState where
  state : Configuration
  cache : Dict

/-- `Session.GetParameter`: `self.state.Get(item)` (default `None`);
if that is `None`, `self.state.cache.Get(item)`; if that is `None`,
the default given by the caller. -/
def GetParameter (s : SessionState) (item : String) (default : Value) : Value :=
  let result := dictGetD s.state.data item .vnone
  let result := if isNone result then dictGetD s.cache item .vnone else result
  if isNone result then default else result

/-- `Session.StoreParameter`: `self.state.cache[item] = value`, a plain
dict item assignment — no hook, no type check, no lock check, and it
cannot raise. -/
def StoreParameter (s : SessionState) (item : String) (value : Value) :
    SessionState × Option PyError :=
  ({ s with cache := dictSet s.cache item value }, none)

/-! ## Profile loading (`Session.LoadProfile`) -/

/-- Outcome of one `obj.Profile.LoadProfileFromContainer` attempt. -/
inductive LoadOutcome where
  | ok : LoadOutcome
  | ioError : LoadOutcome
  | keyError : LoadOutcome
deriving DecidableEq, Repr

/-- What `LoadProfile` produces. -/
inductive ProfOutcome where
  /-- a `Profile()` instance was returned -/
  | loaded : ProfOutcome
  /-- a `NoneObject(e)` was returned (the recorded not-found result) -/
  | notFoundObj : ProfOutcome
  /-- an exception propagated out of `LoadProfile` -/
  | propagated : ProfOutcome
  /-- the loop ran out of candidates and the function fell off the end,
  returning `None` -/
  | fellOffNone : ProfOutcome
deriving DecidableEq, Repr

/-- Result of the profile search: the containers attempted, in order,
and the outcome. -/
structure ProfileResult where
  attempts : List (Option String)
  outcome : ProfOutcome
deriving DecidableEq, Repr

/-- `filename.replace("\\", "/")`. -/
def normalizePath (s : String) : String :=
  ⟨s.data.map (fun c => if c = '\\' then '/' else c)⟩

/-- Python `"/" in filename`. -/
def containsSlash (s : String) : Bool :=
  s.data.any (fun c => c = '/')

/-- The `for path in reversed(...)` loop of `Session.LoadProfile`, body
translated statement by statement: on a successful load it returns the
profile; on `IOError`/`KeyError` it builds a `NoneObject` and — still
inside the `except` block — returns it, so the remaining candidates are
never attempted. -/
def profileLoop (load : Option String → LoadOutcome) :
    List (Option String) → ProfileResult
  | [] => ⟨[], .fellOffNone⟩
  | p :: _rest =>
    match load p with
    | .ok => ⟨[p], .loaded⟩
    | .ioError => ⟨[p], .notFoundObj⟩
    | .keyError => ⟨[p], .notFoundObj⟩

/-- `Session.LoadProfile`: normalize separators; with a separator in
the name, load directly from that container (failures propagate);
otherwise iterate `reversed(self.state.Get("profile_path", [None]))`
with `profileLoop`.  `load` gives the outcome of each candidate container
and `directLoad` the outcome of a direct (path) load. -/
def LoadProfile (filename : String) (statePath : Option (List (Option String)))
    (load : Option String → LoadOutcome) (directLoad : LoadOutcome) :
    ProfileResult :=
  let fn := normalizePath filename
  if containsSlash fn then
    ⟨[], match directLoad with
         | .ok => .loaded
         | _ => .propagated⟩
  else
    profileLoop load (statePath.getD [Option.none]).reverse

/-! ## The dispatch pipeline (`Session.vol`) -/

/-- The taxonomy of exceptions the pipeline catches. -/
inductive ExcKind where
  /-- `plugin.InvalidArgs` -/
  | invalidArgs : ExcKind
  /-- `plugin.Error` -/
  | pluginError : ExcKind
  /-- `KeyboardInterrupt` -/
  | keyboardInterrupt : ExcKind
  /-- any other `Exception` -/
  | other : ExcKind
deriving DecidableEq, Repr

/-- Outcome of calling collaborator code (plugin construction, `render`). -/
inductive Outcome where
  | ok : Outcome
  | raises : ExcKind → Outcome
deriving DecidableEq, Repr

/-- How the plugin reference was passed to `vol`. -/
inductive PluginRefKind where
  /-- a string name; `active` says whether `getattr(self.plugins, name)`
  finds a runner -/
  | strName : (active : Bool) → PluginRefKind
  /-- a class or an `obj.Curry` — it gets instantiated with the kwargs -/
  | classOrCurry : PluginRefKind
  /-- an already-constructed instance — used as-is, no construction -/
  | inst : PluginRefKind
deriving DecidableEq, Repr

/-- Whether `inspect.isclass(plugin_cls) or isinstance(plugin_cls,
obj.Curry)` holds (a name lookup yields a Curry). -/
def needsConstruct : PluginRefKind → Bool
  | .strName _ => true
  | .classOrCurry => true
  | .inst => false

/-- Observable events of one `vol` dispatch, in order. -/
inductive Event where
  /-- `logging.error("Plugin %s is not active...")` -/
  | logPluginNotActive : Event
  /-- `logging.error` that the output file exists but overwrite is not set -/
  | logOutputExists : Event
  /-- the first `ui_renderer.start()` -/
  | rendererStart : Event
  /-- the second `ui_renderer.start(plugin_name=..., kwargs=...)` -/
  | rendererStartNamed : Event
  /-- `ui_renderer.end()` -/
  | rendererEnd : Event
  /-- `logging.error("Invalid Args (Try info plugins.%s): %s", ...)` -/
  | logInvalidArgsHint : Event
  /-- `self.error(plugin_cls, e)` was invoked -/
  | errorHook : Event
  /-- `self.report_progress("Aborted!...")` -/
  | reportAborted : Event
  /-- `logging.error("Error: %s", e)` -/
  | logUnexpected : Event
  /-- the buffered output was streamed through the pager and flushed -/
  | pagerFlush : Event
deriving DecidableEq, Repr

/-- How the `vol` call ended for its caller. -/
inductive VolResult where
  /-- returned the executed plugin instance -/
  | returnedInstance : VolResult
  /-- returned `None` (fell off the end, or an `except` branch returned) -/
  | returnedNone : VolResult
  /-- an exception propagated to the caller -/
  | raised : ExcKind → VolResult
deriving DecidableEq, Repr

/-- The inputs of one `vol` dispatch, with external collaborators
(registry, filesystem, argument mapper, plugin, renderer buffer)
abstracted by their observed behaviour. -/
structure VolArgs where
  ref : PluginRefKind
  /-- the caller passed a `RendererBaseClass` instance as `renderer=` -/
  callerRenderer : Bool
  /-- the popped `output=` argument -/
  output : Option String
  /-- `os.access(output, os.F_OK)` -/
  outputExists : Bool
  /-- `kwargs.get("overwrite")` is truthy -/
  overwriteKw : Bool
  /-- `self.overwrite` is truthy -/
  sessionOverwrite : Bool
  /-- the popped `debug=` argument -/
  debugKw : Bool
  /-- `self.debug` (session attribute) is truthy -/
  sessionDebug : Bool
  /-- `some parsed` when `kwargs.get("flags")` is truthy, where `parsed`
  is `args.MockArgParser().build_args_dict(plugin_cls, flags)` -/
  flags : Option (List (String × Value))
  /-- the kwargs of the caller after popping `renderer`, `fd`, `debug`, `output` -/
  kwargs : List (String × Value)
  /-- outcome of `plugin_cls(*pos_args, **kwargs)` -/
  constructOutcome : Outcome
  /-- outcome of `result.render(ui_renderer)` -/
  renderOutcome : Outcome
  /-- `self.pager` is truthy -/
  hasPager : Bool
  /-- `len(ui_renderer.data)` after the render -/
  dataLen : Nat
  /-- `self.state.paging_limit` -/
  pagingLimit : Nat
  /-- `self.error` re-raises (base `Session.error`); the interactive
  subclass overrides it to log and return -/
  errorHookRaises : Bool

/-- What one `vol` dispatch produced: the ordered event trace, the
result of the call, and the keyword arguments handed to the plugin
constructor (`none` when no construction happened). -/
structure VolOutput where
  events : List Event
  result : VolResult
  pluginKwargs : Option (List (String × Value))

/-- A stand-in for `self` when the pipeline stores it under the kwargs key `session`. -/
def sessionValue : Value := .vobj "session"

/-- The kwargs actually used inside the `try` block: the result of
`build_args_dict` replaces the kwargs of the caller entirely when flags
are truthy, then `self` is added under the key `session`. -/
def volFinalKwargs (a : VolArgs) : List (String × Value) :=
  let kw := match a.flags with
    | some parsed => parsed
    | none => a.kwargs
  dictSet kw "session" sessionValue

/-- The `except` clauses of `vol`: which events they emit and whether
the exception escapes. -/
def handleExc (a : VolArgs) (k : ExcKind) : List Event × VolResult :=
  match k with
  | .invalidArgs => ([.logInvalidArgsHint], .returnedNone)
  | .pluginError =>
      if a.errorHookRaises then ([.errorHook], .raised .pluginError)
      else ([.errorHook], .returnedNone)
  | .keyboardInterrupt => ([.reportAborted], .returnedNone)
  | .other =>
      if a.debugKw then ([.logUnexpected], .returnedNone)
      else ([.logUnexpected], .raised .other)

/-- Whether the renderer-construction branch returns early because the
output file exists and no overwrite flag is set. -/
def outputAborts (a : VolArgs) : Bool :=
  !a.callerRenderer && a.output.isSome && a.outputExists
    && !(a.overwriteKw || a.sessionOverwrite)

/-- Outcome of the construction step: `plugin_cls(*pos_args, **kwargs)`
runs only for a class or a Curry; an instance is used as-is. -/
def constructRes (a : VolArgs) : Outcome :=
  if needsConstruct a.ref then a.constructOutcome else .ok

/-- The `try` block of `Session.vol`: store `self` under the kwargs key
`session`, first `start()`, construction (for classes/Curry), second
`start(...)`, `render` bracketed by `try/finally: end()`, pager
overflow — with the `except` clauses of `handleExc`. -/
def volTryBlock (a : VolArgs) : VolOutput :=
  let constructedKwargs := if needsConstruct a.ref then some (volFinalKwargs a) else none
  match constructRes a with
  | .raises k =>
      let (evs, res) := handleExc a k
      ⟨Event.rendererStart :: evs, res, constructedKwargs⟩
  | .ok =>
      match a.renderOutcome with
      | .raises k =>
          let (evs, res) := handleExc a k
          ⟨Event.rendererStart :: .rendererStartNamed :: .rendererEnd :: evs,
           res, constructedKwargs⟩
      | .ok =>
          let pagerEvs : List Event :=
            if a.hasPager && a.pagingLimit ≤ a.dataLen then [.pagerFlush] else []
          ⟨Event.rendererStart :: .rendererStartNamed :: .rendererEnd :: pagerEvs,
           .returnedInstance, constructedKwargs⟩

/-- `Session.vol`: resolve a string reference against the registry
(bail out with a log message when inactive); bail out when the output
file exists and may not be overwritten; otherwise run the `try` block. -/
def vol (a : VolArgs) : VolOutput :=
  match a.ref with
  | .strName false => ⟨[.logPluginNotActive], .returnedNone, none⟩
  | _ =>
    if outputAborts a then ⟨[.logOutputExists], .returnedNone, none⟩
    else volTryBlock a

/-- How many times an event occurs in a trace. -/
def countEvent (e : Event) : List Event → Nat
  | [] => 0
  | x :: rest => (if x = e then 1 else 0) + countEvent e rest

/-- A session with the key `pid` set non-null in both layers, with
distinct values. -/
def sessionEx : SessionState :=
  ⟨⟨[("pid", Value.vint 4)], true, true⟩, [("pid", Value.vint 7)]⟩

/-- A dispatch whose plugin construction raises `InvalidArgs`, after
the renderer was started. -/
def volInvalidArgsEx : VolArgs where
  ref := .classOrCurry
  callerRenderer := true
  output := none
  outputExists := false
  overwriteKw := false
  sessionOverwrite := false
  debugKw := false
  sessionDebug := false
  flags := none
  kwargs := []
  constructOutcome := .raises .invalidArgs
  renderOutcome := .ok
  hasPager := false
  dataLen := 0
  pagingLimit := 1
  errorHookRaises := true

/-- A dispatch whose `render` raises an unexpected exception. -/
def volRenderRaiseEx : VolArgs where
  ref := .classOrCurry
  callerRenderer := true
  output := none
  outputExists := false
  overwriteKw := false
  sessionOverwrite := false
  debugKw := false
  sessionDebug := false
  flags := none
  kwargs := []
  constructOutcome := .ok
  renderOutcome := .raises .other
  hasPager := false
  dataLen := 0
  pagingLimit := 1
  errorHookRaises := true

/-- A dispatch with both an explicit kwarg (`dump_dir`) and raw flags
whose parse yields `verbosity` only. -/
def volFlagsEx : VolArgs where
  ref := .classOrCurry
  callerRenderer := true
  output := none
  outputExists := false
  overwriteKw := false
  sessionOverwrite := false
  debugKw := false
  sessionDebug := false
  flags := some [("verbosity", Value.vint 1)]
  kwargs := [("dump_dir", Value.vstr "/tmp")]
  constructOutcome := .ok
  renderOutcome := .ok
  hasPager := false
  dataLen := 0
  pagingLimit := 1
  errorHookRaises := true

/-- A container loader for which only container `B` holds the wanted
profile; every other candidate raises `KeyError`. -/
def loadB : Option String → LoadOutcome :=
  fun p => if p = some "B" then .ok else .keyError

/-! ## Helper lemmas -/

theorem isNone_vnone : isNone .vnone = true := rfl

theorem dictGet_dictSet_self (d : Dict) (k : String) (v : Value) :
    dictGet (dictSet d k v) k = some v := by
  induction d with
  | nil => simp [dictSet, dictGet]
  | cons p rest ih =>
    obtain ⟨k1, v1⟩ := p
    by_cases h : k1 = k <;> simp [dictSet, dictGet, h, ih]

theorem dictGet_dictSet_ne (d : Dict) (k k2 : String) (v : Value) (h : k2 ≠ k) :
    dictGet (dictSet d k v) k2 = dictGet d k2 := by
  induction d with
  | nil => simp [dictSet, dictGet, Ne.symm h]
  | cons p rest ih =>
    obtain ⟨k1, v1⟩ := p
    by_cases h1 : k1 = k
    · subst h1
      simp [dictSet, dictGet, Ne.symm h]
    · by_cases h2 : k1 = k2 <;> simp [dictSet, dictGet, h1, h2, h, ih]

theorem dictGet_dictUpdate_not_mem (ks : List (String × Value)) (d : Dict) (k : String)
    (h : ∀ p ∈ ks, p.1 ≠ k) : dictGet (dictUpdate d ks) k = dictGet d k := by
  induction ks generalizing d with
  | nil => rfl
  | cons p rest ih =>
    obtain ⟨k1, v1⟩ := p
    have h1 : k1 ≠ k := h (k1, v1) (by simp)
    have hrest : ∀ p ∈ rest, p.1 ≠ k := fun p hp => h p (List.mem_cons_of_mem _ hp)
    simp only [dictUpdate]
    rw [ih (dictSet d k1 v1) hrest]
    exact dictGet_dictSet_ne d k1 k v1 (Ne.symm h1)

theorem dictGet_dictUpdate_mem (ks : List (String × Value)) (d : Dict) (k : String) (v : Value)
    (h : dictGet (dictUpdate d ks) k = some v) : (k, v) ∈ ks ∨ dictGet d k = some v := by
  induction ks generalizing d with
  | nil => exact Or.inr h
  | cons p rest ih =>
    obtain ⟨k1, v1⟩ := p
    simp only [dictUpdate] at h
    rcases ih (dictSet d k1 v1) h with hmem | hget
    · exact Or.inl (List.mem_cons_of_mem _ hmem)
    · by_cases hk : k = k1
      · subst hk
        rw [dictGet_dictSet_self] at hget
        injection hget with hv
        exact Or.inl (by simp [hv.symm])
      · rw [dictGet_dictSet_ne d k1 k v1 hk] at hget
        exact Or.inr hget

theorem configSet_hasSession (c : Configuration) (k : String) (v : Value) :
    ((configSet c k v).1).hasSession = c.hasSession := by
  by_cases hl : c.lock
  · simp [configSet, hl]
  · rcases hce : cacheSet c.data k v with ⟨d, e⟩
    simp [configSet, hl, hce]

theorem runBody_hasSession (body : List (String × Value)) (c : Configuration) :
    ((runBody c body).1).hasSession = c.hasSession := by
  induction body generalizing c with
  | nil => rfl
  | cons p rest ih =>
    obtain ⟨k, v⟩ := p
    rcases hcs : configSet c k v with ⟨c1, e⟩
    have h1 : c1.hasSession = c.hasSession := by
      have h := configSet_hasSession c k v
      rw [hcs] at h
      exact h
    cases e with
    | none => simp [runBody, hcs, ih c1, h1]
    | some err => simp [runBody, hcs, h1]

theorem handleExc_end_free (a : VolArgs) (k : ExcKind) :
    countEvent Event.rendererEnd (handleExc a k).1 = 0 := by
  cases k with
  | invalidArgs => rfl
  | pluginError => by_cases h : a.errorHookRaises = true <;> simp [handleExc, h, countEvent]
  | keyboardInterrupt => rfl
  | other => by_cases h : a.debugKw = true <;> simp [handleExc, h, countEvent]

theorem vol_eq_tryBlock (a : VolArgs) (h1 : a.ref ≠ PluginRefKind.strName false)
    (h2 : outputAborts a = false) : vol a = volTryBlock a := by
  cases href : a.ref with
  | strName active =>
    cases active with
    | false => exact absurd href h1
    | true => simp [vol, href, h2]
  | classOrCurry => simp [vol, href, h2]
  | inst => simp [vol, href, h2]

/-! ## Claim theorems -/

/-- Claim C1: `Session.GetParameter` resolves a key first in the state
layer; when the state layer has no entry or a null entry it resolves in
the cache layer; when that is also absent or null it returns the given
default.  In particular, a key present non-null in both layers resolves
to the state-layer value. -/
theorem getParameter_precedence (s : SessionState) (k : String) (d : Value) :
    (∀ v, dictGet s.state.data k = some v → isNone v = false →
      GetParameter s k d = v) ∧
    ((dictGet s.state.data k = none ∨ dictGet s.state.data k = some .vnone) →
      (∀ w, dictGet s.cache k = some w → isNone w = false →
        GetParameter s k d = w) ∧
      ((dictGet s.cache k = none ∨ dictGet s.cache k = some .vnone) →
        GetParameter s k d = d)) := by
  constructor
  · intro v hv hnn
    simp [GetParameter, dictGetD, hv, hnn]
  · intro hstate
    constructor
    · intro w hw hnn
      rcases hstate with h | h <;>
        simp [GetParameter, dictGetD, h, hw, hnn, isNone_vnone]
    · intro hcache
      rcases hstate with h | h <;> rcases hcache with h2 | h2 <;>
        simp [GetParameter, dictGetD, h, h2, isNone_vnone]

/-- Witness for C1: with `pid` set to 4 in the state layer and 7 in the
cache layer, resolution returns the state-layer 4. -/
theorem getParameter_precedence_witness :
    GetParameter sessionEx "pid" (Value.vint 0) = Value.vint 4 :=
  (getParameter_precedence sessionEx "pid" (Value.vint 0)).1 (Value.vint 4) rfl rfl

/-- Claim C2: every `Set` on a locked `Configuration` raises the
locking error and leaves the configuration unchanged, and this holds
along any sequence of such calls. -/
theorem locked_set_sequence_unchanged (c : Configuration)
    (calls : List (String × Value)) (hl : c.lock = true) :
    (configSetSeq c calls).1 = c ∧
    (configSetSeq c calls).2 =
      List.replicate calls.length (some PyError.lockedError) := by
  induction calls generalizing c with
  | nil => exact ⟨rfl, rfl⟩
  | cons p rest ih =>
    obtain ⟨k, v⟩ := p
    have hset : configSet c k v = (c, some PyError.lockedError) := by
      simp [configSet, hl]
    obtain ⟨ih1, ih2⟩ := ih c hl
    constructor
    · simp [configSetSeq, hset, ih1]
    · simp [configSetSeq, hset, ih2, List.replicate]

/-- Witness for C2: two writes against a locked store both produce the
locking error and the store keeps its contents. -/
theorem locked_set_sequence_unchanged_witness :
    (configSetSeq ⟨[("a", Value.vint 1)], true, true⟩
        [("x", Value.vstr "y"), ("a", Value.vint 2)]).1 =
      ⟨[("a", Value.vint 1)], true, true⟩ ∧
    (configSetSeq ⟨[("a", Value.vint 1)], true, true⟩
        [("x", Value.vstr "y"), ("a", Value.vint 2)]).2 =
      List.replicate 2 (some PyError.lockedError) :=
  locked_set_sequence_unchanged ⟨[("a", Value.vint 1)], true, true⟩
    [("x", Value.vstr "y"), ("a", Value.vint 2)] rfl

/-- Claim C9: `Session.StoreParameter` writes straight into the cache
layer dict: it never raises, it does not touch the state layer (so no
lock check), and it stores the value even when the value fails the
serializable-type check. -/
theorem storeParameter_cache_direct (s : SessionState) (k : String) (v : Value) :
    (StoreParameter s k v).2 = none ∧
    (StoreParameter s k v).1.state = s.state ∧
    (StoreParameter s k v).1.cache = dictSet s.cache k v ∧
    dictGet (StoreParameter s k v).1.cache k = some v :=
  ⟨rfl, rfl, rfl, dictGet_dictSet_self s.cache k v⟩

/-- Claim C10: seeding at `Configuration` construction is a plain
mapping update: it never raises, every stored entry is verbatim one of
the seeded pairs (so no hook transformed or added anything), and in
particular no `base_filename` is derived when none was seeded. -/
theorem configuration_seeding_bypasses_checks (hs : Bool)
    (kwargs : List (String × Value)) :
    (configurationInit hs kwargs).2 = none ∧
    (configurationInit hs kwargs).1.lock = true ∧
    (∀ k v, dictGet (configurationInit hs kwargs).1.data k = some v →
      (k, v) ∈ kwargs) ∧
    ((∀ p ∈ kwargs, p.1 ≠ "base_filename") →
      dictGet (configurationInit hs kwargs).1.data "base_filename" = none) := by
  refine ⟨rfl, rfl, ?_, ?_⟩
  · intro k v h
    rcases dictGet_dictUpdate_mem kwargs [] k v h with hmem | hget
    · exact hmem
    · exact absurd hget (by simp [dictGet])
  · intro hb
    rw [show (configurationInit hs kwargs).1.data = dictUpdate [] kwargs from rfl]
    rw [dictGet_dictUpdate_not_mem kwargs [] "base_filename" hb]
    rfl

/-- Witness for C10: seeding `filename` and a non-serializable `set`
value raises nothing and derives no `base_filename`. -/
theorem configuration_seeding_bypasses_checks_witness :
    (configurationInit true
        [("filename", Value.vstr "/tmp/x.img"), ("junk", Value.vset [])]).2 = none ∧
    dictGet (configurationInit true
        [("filename", Value.vstr "/tmp/x.img"), ("junk", Value.vset [])]).1.data
      "base_filename" = none := by
  have h := configuration_seeding_bypasses_checks true
      [("filename", Value.vstr "/tmp/x.img"), ("junk", Value.vset [])]
  exact ⟨h.1, h.2.2.2 (by decide)⟩

/-- Counterexample for C5: the value `set()` is not serializable, yet
`Set("filename", set())` on an unlocked store raises nothing (the
`_set_filename` hook runs instead of the type check and an empty set is
falsy), contradicting the claim that a non-serializable value always
raises a configuration type error. -/
theorem set_serializability_cex :
    _CheckCorrectType (Value.vset []) = false ∧
    configSet ⟨[], false, true⟩ "filename" (Value.vset []) =
      (⟨[], false, true⟩, none) :=
  ⟨rfl, rfl⟩

/-- Claim C5 (amended): for every key for which `Set` finds no hook
(the key is not `filename` and the store holds no `_set_<key>` entry),
`Set` on an unlocked store stores the value iff it passes the recursive
serializable-type check, and otherwise raises the configuration type
error leaving the store unchanged. -/
theorem set_serializability_no_hook (c : Configuration) (k : String) (v : Value)
    (hl : c.lock = false) (hk : k ≠ "filename")
    (hh : dictGet c.data ("_set_" ++ k) = none) :
    (_CheckCorrectType v = true →
      configSet c k v = ({ c with data := dictSet c.data k v }, none) ∧
      dictGet (dictSet c.data k v) k = some v) ∧
    (_CheckCorrectType v = false →
      configSet c k v = (c, some PyError.typeError)) := by
  constructor
  · intro hv
    exact ⟨by simp [configSet, cacheSet, hl, hk, hh, hv],
           dictGet_dictSet_self c.data k v⟩
  · intro hv
    obtain ⟨data, lock, hsn⟩ := c
    simp only at hl
    subst hl
    simp [configSet, cacheSet, hk, hh, hv]

/-- Witness for C5: a serializable value is stored; a non-serializable
one raises the type error with the store unchanged. -/
theorem set_serializability_no_hook_witness :
    configSet ⟨[], false, true⟩ "pid" (Value.vint 2) =
      (⟨[("pid", Value.vint 2)], false, true⟩, none) ∧
    configSet ⟨[], false, true⟩ "bad" (Value.vobj "o") =
      (⟨[], false, true⟩, some PyError.typeError) :=
  ⟨((set_serializability_no_hook ⟨[], false, true⟩ "pid" (Value.vint 2)
      rfl (by decide) rfl).1 rfl).1,
   (set_serializability_no_hook ⟨[], false, true⟩ "bad" (Value.vobj "o")
      rfl (by decide) rfl).2 rfl⟩

/-- Claim C6: every exit of a scoped configuration update re-locks the
store and, when a session is attached, runs the re-synchronization hook
exactly once — also when the body of the update raised. -/
theorem scoped_update_relock_resync_once (c : Configuration)
    (body : List (String × Value)) (hs : c.hasSession = true) :
    (withConfigUpdate c body).1.lock = true ∧
    (withConfigUpdate c body).2.2 = 1 := by
  have hpres : ((runBody (configEnter c) body).1).hasSession = true := by
    rw [runBody_hasSession]
    simpa [configEnter] using hs
  rcases hrb : runBody (configEnter c) body with ⟨c2, e⟩
  rw [hrb] at hpres
  have hpres2 : c2.hasSession = true := hpres
  simp [withConfigUpdate, configExit, hrb, hpres2]

/-- Witness for C6: a body whose single `Set` raises the type error
still re-locks and triggers exactly one re-synchronization. -/
theorem scoped_update_relock_resync_once_witness :
    (withConfigUpdate ⟨[], true, true⟩ [("x", Value.vobj "bad")]).2.1 =
      some PyError.typeError ∧
    (withConfigUpdate ⟨[], true, true⟩ [("x", Value.vobj "bad")]).1.lock = true ∧
    (withConfigUpdate ⟨[], true, true⟩ [("x", Value.vobj "bad")]).2.2 = 1 :=
  ⟨rfl,
   (scoped_update_relock_resync_once ⟨[], true, true⟩ [("x", Value.vobj "bad")] rfl).1,
   (scoped_update_relock_resync_once ⟨[], true, true⟩ [("x", Value.vobj "bad")] rfl).2⟩

/-- Claim C3: in every dispatch that reaches `render` (the reference
resolved, the output check passed, construction succeeded) and whose
`render` raises — any kind of the taxonomy — `end()` is observed on the
renderer exactly once. -/
theorem render_raise_end_called_once (a : VolArgs) (k : ExcKind)
    (h1 : a.ref ≠ PluginRefKind.strName false)
    (h2 : outputAborts a = false)
    (h3 : constructRes a = Outcome.ok)
    (h4 : a.renderOutcome = Outcome.raises k) :
    countEvent Event.rendererEnd (vol a).events = 1 := by
  rw [vol_eq_tryBlock a h1 h2]
  rcases hhe : handleExc a k with ⟨evs, res⟩
  have hfree : countEvent Event.rendererEnd evs = 0 := by
    have h := handleExc_end_free a k
    rw [hhe] at h
    exact h
  simp [volTryBlock, h3, h4, hhe, countEvent, hfree]

/-- Witness for C3: a dispatch whose `render` raises an unexpected
exception still calls `end()` exactly once. -/
theorem render_raise_end_called_once_witness :
    countEvent Event.rendererEnd (vol volRenderRaiseEx).events = 1 :=
  render_raise_end_called_once volRenderRaiseEx .other (by decide) rfl rfl rfl

/-- Counterexample for C7: when the plugin constructor raises
`InvalidArgs`, the renderer has already been started (the first
`start()` is in the trace) but `end()` is never called, because the
`try/finally` bracket around `render` was never entered — contradicting
the claim that `end()` is still called whenever a renderer was started. -/
theorem invalid_args_construction_no_end_cex :
    (vol volInvalidArgsEx).events =
      [Event.rendererStart, Event.logInvalidArgsHint] ∧
    countEvent Event.rendererEnd (vol volInvalidArgsEx).events = 0 ∧
    (vol volInvalidArgsEx).result = VolResult.returnedNone :=
  ⟨rfl, rfl, rfl⟩

/-- Claim C7 (amended): when the dispatch reaches the `try` block and
`InvalidArgs` is raised — at construction or during `render` — the
pipeline logs the descriptive message with the info hint and returns
normally without re-raising; `end()` runs exactly once when the failure
arose during `render`, and zero times when it arose at construction
(even though the renderer was started). -/
theorem invalid_args_recovery (a : VolArgs)
    (h1 : a.ref ≠ PluginRefKind.strName false)
    (h2 : outputAborts a = false)
    (h3 : constructRes a = Outcome.raises ExcKind.invalidArgs ∨
          (constructRes a = Outcome.ok ∧
           a.renderOutcome = Outcome.raises ExcKind.invalidArgs)) :
    Event.logInvalidArgsHint ∈ (vol a).events ∧
    (vol a).result = VolResult.returnedNone ∧
    countEvent Event.rendererEnd (vol a).events =
      (if constructRes a = Outcome.ok then 1 else 0) := by
  rw [vol_eq_tryBlock a h1 h2]
  rcases h3 with hc | ⟨hc, hr⟩
  · simp [volTryBlock, hc, handleExc, countEvent]
  · simp [volTryBlock, hc, hr, handleExc, countEvent]

/-- Witness for C7: the construction-failure case — hint logged,
normal return, no `end()`. -/
theorem invalid_args_recovery_witness :
    Event.logInvalidArgsHint ∈ (vol volInvalidArgsEx).events ∧
    (vol volInvalidArgsEx).result = VolResult.returnedNone ∧
    countEvent Event.rendererEnd (vol volInvalidArgsEx).events = 0 := by
  have h := invalid_args_recovery volInvalidArgsEx (by decide) rfl (Or.inl rfl)
  exact ⟨h.1, h.2.1, h.2.2⟩

/-- Counterexample for C8: the caller passes `dump_dir` explicitly and
also raw flags whose parse yields only `verbosity`; the final argument
set handed to the plugin no longer contains `dump_dir`, contradicting
the claim that caller-supplied keyword arguments are always
preserved. -/
theorem flags_discard_caller_kwargs_cex :
    volFlagsEx.kwargs = [("dump_dir", Value.vstr "/tmp")] ∧
    (vol volFlagsEx).pluginKwargs =
      some [("verbosity", Value.vint 1), ("session", sessionValue)] ∧
    dictGet [("verbosity", Value.vint 1), ("session", sessionValue)] "dump_dir" =
      none :=
  ⟨rfl, rfl, rfl⟩

/-- Claim C8 (amended): when raw flags are supplied, the keyword
arguments produced by the external argument mapper replace the
explicitly-passed keyword arguments wholesale (the `session` entry is
then re-added); caller kwargs survive only when no flags are given. -/
theorem flags_replace_kwargs (a : VolArgs) (parsed : List (String × Value))
    (h1 : a.ref ≠ PluginRefKind.strName false)
    (h2 : outputAborts a = false)
    (h3 : needsConstruct a.ref = true)
    (h4 : a.flags = some parsed) :
    (vol a).pluginKwargs = some (dictSet parsed "session" sessionValue) := by
  rw [vol_eq_tryBlock a h1 h2]
  cases hcr : constructRes a with
  | ok =>
    cases hro : a.renderOutcome with
    | ok => simp [volTryBlock, hcr, hro, h3, volFinalKwargs, h4]
    | raises k =>
      rcases hhe : handleExc a k with ⟨evs, res⟩
      simp [volTryBlock, hcr, hro, hhe, h3, volFinalKwargs, h4]
  | raises k =>
    rcases hhe : handleExc a k with ⟨evs, res⟩
    simp [volTryBlock, hcr, hhe, h3, volFinalKwargs, h4]

/-- Witness for C8: with flags parsed to `verbosity`, the plugin
receives exactly the parsed arguments plus `session`. -/
theorem flags_replace_kwargs_witness :
    (vol volFlagsEx).pluginKwargs =
      some (dictSet [("verbosity", Value.vint 1)] "session" sessionValue) :=
  flags_replace_kwargs volFlagsEx [("verbosity", Value.vint 1)]
    (by decide) rfl rfl rfl

/-- C4, evaluated at the failing input: with
`profile_path = [A, B, C]` and a profile that only container `B` can
load, `LoadProfile` attempts only `C` (the reversed-order head) and
returns the not-found object: the `return result` inside the `except`
block aborts the search after the first failed candidate, although the
next candidate `B` would have succeeded — against both the spec and the
comment in the source saying the path is traversed until one works. -/
theorem profile_search_aborts_on_first_failure :
    LoadProfile "ntkrnlmp" (some [some "A", some "B", some "C"]) loadB .keyError =
      ⟨[some "C"], .notFoundObj⟩ ∧
    loadB (some "B") = .ok :=
  ⟨rfl, rfl⟩

end Rekall
